import Mathlib

/-
Verification of the SVCA lab genesis core against its specification.
Shallow embedding of the Python sources:
  src/fuzzy_extractor/fuzzy_extractor.py, src/fuzzy_extractor/bch_helper.py,
  src/algebra/sigma_rules.py, src/algebra/psi_state.py, src/algebra/omega_gate.py,
  src/ohash/ohash.py, src/genesis/genesis_artifact.py, src/genesis/triple_anchor.py.
Hash primitives (SHA3-256 and friends) are modelled as explicit function
parameters: every definition below is a faithful translation of the source
with the hash function abstracted, and concrete toy hash functions are used
to evaluate the code on concrete inputs.
-/

namespace SVCA

/-- Byte strings are lists of naturals (each byte a value below 256). -/
abbrev Bytes := List Nat

/-! ## Fuzzy extractor (src/fuzzy_extractor) -/

/-- Binary-digit recursion with explicit fuel (`fuel` bounds the number of
digits, so `fuel = n` always suffices). -/
def popCountAux : Nat → Nat → Nat
  | 0, _ => 0
  | fuel + 1, n => if n = 0 then 0 else n % 2 + popCountAux fuel (n / 2)

/-- Number of set bits of a natural number, as computed by
`bin(xor).count("1")` in `BCHHelper.hamming_distance`. -/
def popCount (n : Nat) : Nat := popCountAux n n

/-- `BCHHelper.hamming_distance` (bch_helper.py lines 95-114): raises
(`none`) when the inputs have different lengths, otherwise sums the
popcounts of the bytewise xors. -/
def hamming_distance (a b : Bytes) : Option Nat :=
  if a.length ≠ b.length then none
  else some ((List.zip a b).foldl (fun d p => d + popCount (Nat.xor p.1 p.2)) 0)

/-- `BCHHelper.can_correct` (bch_helper.py lines 116-126). -/
def can_correct (t distance : Nat) : Bool :=
  decide (distance ≤ t)

/-- Constructor arguments of `FuzzyExtractor` (fuzzy_extractor.py lines 30-51). -/
structure FEConfig where
  key_length : Nat
  error_tolerance : Nat
  use_secure_sketch : Bool
deriving DecidableEq

/-- The domain-separation tag `b"FUZZY_EXTRACTOR_GEN"`. -/
def genTag : Bytes := "FUZZY_EXTRACTOR_GEN".data.map Char.toNat

/-- `counter.to_bytes(4, "big")`. -/
def toBytes4 (c : Nat) : Bytes :=
  [c / 2 ^ 24 % 256, c / 2 ^ 16 % 256, c / 2 ^ 8 % 256, c % 256]

/-- The `while len(output) < length` loop of `FuzzyExtractor._kdf`
(fuzzy_extractor.py lines 139-147), with explicit fuel.  Each iteration of
the Python loop appends a 32-byte digest, so `length` iterations always
suffice for a real hash function. -/
def kdfLoop (H : Bytes → Bytes) (km : Bytes) (length : Nat) :
    Nat → Nat → Bytes → Bytes
  | 0, _, output => output
  | fuel + 1, counter, output =>
    if output.length < length then
      kdfLoop H km length fuel (counter + 1) (output ++ H (km ++ toBytes4 counter))
    else output

/-- `FuzzyExtractor._kdf` (fuzzy_extractor.py lines 123-149), with the
SHA3-256 primitive abstracted as `H`. -/
def kdf (H : Bytes → Bytes) (km : Bytes) (length : Nat) : Bytes :=
  (kdfLoop H km length length 0 []).take length

/-- `FuzzyExtractor.gen` (fuzzy_extractor.py lines 53-86).  `BCHHelper.encode`
returns `(data, sha3_256(data))`, so the ECC part of the helper data is
`H w`.  The fresh random salt `secrets.token_bytes(16)` is passed in as the
parameter `salt`.  Returns `(key, helper_data)`. -/
def gen (H : Bytes → Bytes) (cfg : FEConfig) (salt w : Bytes) : Bytes × Bytes :=
  let helper_data_ecc := if cfg.use_secure_sketch then H w else []
  let key_material := H (genTag ++ w)
  let key := kdf H key_material cfg.key_length
  (key, helper_data_ecc ++ salt)

/-- `FuzzyExtractor.rep` (fuzzy_extractor.py lines 88-121).  The source
slices the helper data but never uses it, and sets
`corrected_response = noisy_puf_response` on every path (lines 100-110):
no error correction is performed and `None` is never returned. -/
def rep (H : Bytes → Bytes) (cfg : FEConfig) (noisy helper_data : Bytes) :
    Option Bytes :=
  let _helper_data_ecc := if cfg.use_secure_sketch then helper_data.take 32 else []
  let corrected_response := noisy
  let key_material := H (genTag ++ corrected_response)
  some (kdf H key_material cfg.key_length)

/-- A concrete stand-in for SHA3-256 used to evaluate the embedded code on
concrete inputs: a rolling-product digest of one byte-sized limb. -/
def toyHash (b : Bytes) : Bytes :=
  [b.foldl (fun acc x => (acc * 257 + x + 1) % 1000000007) 1]

/-- Claim C9: reproducing with the unmodified original response returns
exactly the key that `gen` produced, for every hash primitive, every
configuration, every salt and every response. -/
theorem rep_on_original_returns_gen_key (H : Bytes → Bytes) (cfg : FEConfig)
    (salt w : Bytes) :
    rep H cfg w (gen H cfg salt w).2 = some (gen H cfg salt w).1 := rfl

/-- Claim C10: the key produced by `gen` is a function of the response (and
configuration) alone; the random salt only enters the helper data, so two
calls on the same response yield equal keys — and different salts yield
different helper data of the same shape. -/
theorem gen_key_deterministic (H : Bytes → Bytes) (cfg : FEConfig)
    (s1 s2 w : Bytes) :
    (gen H cfg s1 w).1 = (gen H cfg s2 w).1 := rfl

/-- Claim C1 (code evaluation): with `key_length = 2`, `error_tolerance = 8`
and original response `[0, 0]`, the noisy response `[1, 0]` is at Hamming
distance 1 ≤ 8, yet `rep` returns a key different from the one `gen`
returned; and the noisy response `[255, 255]` is at distance 16 > 8, yet
`rep` still returns a key instead of failing. -/
theorem rep_performs_no_error_correction :
    hamming_distance [0, 0] [1, 0] = some 1 ∧
    1 ≤ (8 : Nat) ∧
    rep toyHash ⟨2, 8, true⟩ [1, 0] (gen toyHash ⟨2, 8, true⟩ (List.replicate 16 0) [0, 0]).2
      ≠ some (gen toyHash ⟨2, 8, true⟩ (List.replicate 16 0) [0, 0]).1 ∧
    hamming_distance [0, 0] [255, 255] = some 16 ∧
    8 < 16 ∧
    (rep toyHash ⟨2, 8, true⟩ [255, 255]
      (gen toyHash ⟨2, 8, true⟩ (List.replicate 16 0) [0, 0]).2).isSome = true := by
  decide

/-! ## Σ-rules (src/algebra/sigma_rules.py) -/

/-- `RuleSeverity` (sigma_rules.py lines 19-23). -/
inductive RuleSeverity
  | CRITICAL
  | ERROR
  | WARNING
deriving DecidableEq

/-- The flattened validation state: `StateVector.to_dict()` plus the keys
`prev_timestamp`, `prev_location`, `prev_hash` that `OmegaGate.validate`
merges in.  An outer `none` on `prev_timestamp`/`prev_location` means the
key is absent from the dict (the trajectory was empty).  Timestamps and
coordinates (Python floats) are modelled as integers — no claim depends on
fractional values — and metadata values as strings. -/
structure ValState where
  puf_id : String
  timestamp : Int
  location : Option (Int × Int)
  temperature : Option Int
  entropy_bits : Option Int
  prev_hash : Option String
  psi_state_id : Option String
  metadata : List (String × String)
  prev_timestamp : Option Int
  prev_location : Option (Option (Int × Int))
deriving DecidableEq

/-- `RuleViolation` (sigma_rules.py lines 26-43). -/
structure RuleViolation where
  rule_id : String
  severity : RuleSeverity
  message : String
  state : ValState
deriving DecidableEq

/-- `SigmaRule` (sigma_rules.py lines 46-72).  A validator is a Python
callable that may raise: `Except.error e` models a raised exception with
text `e`. -/
structure SigmaRule where
  rule_id : String
  description : String
  validator : ValState → Except String Bool
  severity : RuleSeverity

/-- `SigmaRule.check` (sigma_rules.py lines 74-104): a `False` verdict
yields a violation with the rule's declared severity; a raised exception is
converted into a CRITICAL violation. -/
def SigmaRule.check (r : SigmaRule) (state : ValState) : Option RuleViolation :=
  match r.validator state with
  | .ok true => none
  | .ok false => some ⟨r.rule_id, r.severity, "Violação: " ++ r.description, state⟩
  | .error e => some ⟨r.rule_id, RuleSeverity.CRITICAL, "Erro ao validar: " ++ e, state⟩

/-- `SigmaRuleSet` (sigma_rules.py lines 110-131): the `rules` dict in
insertion order. -/
structure SigmaRuleSet where
  rules : List SigmaRule

/-- `SigmaRuleSet.check_all` (sigma_rules.py lines 143-160): evaluates every
rule in order and collects the non-`None` results. -/
def SigmaRuleSet.check_all (rs : SigmaRuleSet) (state : ValState) :
    List RuleViolation :=
  rs.rules.filterMap (fun r => r.check state)

/-- `SigmaRuleSet.is_valid` (sigma_rules.py lines 162-180). -/
def SigmaRuleSet.is_valid (rs : SigmaRuleSet) (state : ValState) : Bool :=
  decide (((rs.check_all state).filter
    (fun v => decide (v.severity = RuleSeverity.CRITICAL))).length = 0)

/-! ## Ψ-state (src/algebra/psi_state.py) -/

/-- `StateVector` (psi_state.py lines 26-106). -/
structure StateVector where
  puf_id : String
  timestamp : Int
  location : Option (Int × Int) := none
  temperature : Option Int := none
  entropy_bits : Option Int := none
  prev_hash : Option String := none
  psi_state_id : Option String := none
  metadata : List (String × String) := []
deriving DecidableEq

/-- `StateVector.to_dict` (psi_state.py lines 61-72); the dict never carries
the `prev_timestamp`/`prev_location` keys. -/
def StateVector.to_dict (v : StateVector) : ValState :=
  ⟨v.puf_id, v.timestamp, v.location, v.temperature, v.entropy_bits,
   v.prev_hash, v.psi_state_id, v.metadata, none, none⟩

/-- `PsiState` (psi_state.py lines 109-132): the parallel `states` and
`state_hashes` lists.  `StateVector.compute_hash` (SHA3-256 over the
domain-tagged field serialization) is abstracted as a parameter
`Hs : StateVector → String` of the operations below. -/
structure PsiState where
  states : List StateVector
  state_hashes : List String
deriving DecidableEq

/-- `PsiState.append` (psi_state.py lines 134-158): overwrites `prev_hash`
with the current head hash when the trajectory is nonempty, assigns
`psi_state_id`, computes and stores the hash.  Returns the new trajectory
and the stored hash. -/
def PsiState.append (Hs : StateVector → String) (t : PsiState)
    (vector : StateVector) : PsiState × String :=
  let v1 :=
    if t.states.length > 0 then
      { vector with prev_hash := some (t.state_hashes.getLastD "") }
    else vector
  let v2 := { v1 with psi_state_id := some ("PSI_" ++ toString t.states.length) }
  let state_hash := Hs v2
  (⟨t.states ++ [v2], t.state_hashes ++ [state_hash]⟩, state_hash)

/-- `PsiState.get_current` (psi_state.py lines 160-169). -/
def PsiState.get_current (t : PsiState) : Option StateVector :=
  t.states.getLast?

/-- `PsiState.verify_chain` (psi_state.py lines 212-228): for every index
`i ≥ 1` the stored vector's `prev_hash` must equal the predecessor's stored
hash. -/
def PsiState.verify_chain (t : PsiState) : Bool :=
  (List.range t.states.length).all fun i =>
    if i = 0 then true
    else
      match t.states[i]?, t.state_hashes[i - 1]? with
      | some current, some prev_hash => decide (current.prev_hash = some prev_hash)
      | _, _ => true

/-- Sequential `append` calls folded over a list of vectors. -/
def appendAll (Hs : StateVector → String) (t : PsiState)
    (vs : List StateVector) : PsiState :=
  vs.foldl (fun t v => (t.append Hs v).1) t

/-- Overwrite the stored `prev_hash` of the state at index `i` (the tampering
operation of claim C5; out-of-range indices leave the trajectory unchanged). -/
def setPrevHash (t : PsiState) (i : Nat) (v : Option String) : PsiState :=
  match t.states[i]? with
  | some s => { t with states := t.states.set i { s with prev_hash := v } }
  | none => t

/-! ## Ω-gate (src/algebra/omega_gate.py) -/

/-- `GateDecision` (omega_gate.py lines 20-24). -/
inductive GateDecision
  | ALLOW
  | BLOCK
  | QUARANTINE
deriving DecidableEq

/-- `GateResult` (omega_gate.py lines 27-56). -/
structure GateResult where
  decision : GateDecision
  violations : List RuleViolation
  message : String
  state_vector : StateVector
  signature_valid : Bool
  trajectory_valid : Bool
deriving DecidableEq

/-- `GateResult.is_allowed` (omega_gate.py lines 51-53). -/
def GateResult.is_allowed (r : GateResult) : Bool :=
  decide (r.decision = GateDecision.ALLOW)

/-- `OmegaGate` (omega_gate.py lines 59-87): rule set, strict flag and the
two counters. -/
structure OmegaGate where
  sigma_rules : SigmaRuleSet
  strict_mode : Bool
  blocked_count : Nat
  allowed_count : Nat

/-- The merge of the candidate's dict with the trajectory-derived context
performed by `OmegaGate.validate` (omega_gate.py lines 118-127). -/
def mergeValidationState (state_vector : StateVector) (psi_state : PsiState) :
    ValState :=
  let vs := state_vector.to_dict
  match psi_state.get_current with
  | none => vs
  | some current =>
    { vs with
      prev_timestamp := some current.timestamp
      prev_location := some current.location
      prev_hash := some (psi_state.state_hashes.getLastD "") }

/-- `OmegaGate.validate` (omega_gate.py lines 89-192).  Returns the updated
gate (counters) together with the `GateResult`. -/
def OmegaGate.validate (g : OmegaGate) (state_vector : StateVector)
    (psi_state : PsiState) (signature_valid : Bool) : OmegaGate × GateResult :=
  if !signature_valid then
    ({ g with blocked_count := g.blocked_count + 1 },
     ⟨GateDecision.BLOCK, [], "Assinatura criptográfica inválida",
      state_vector, false, false⟩)
  else
    let validation_state := mergeValidationState state_vector psi_state
    let violations := g.sigma_rules.check_all validation_state
    let critical_violations :=
      violations.filter (fun v => decide (v.severity = RuleSeverity.CRITICAL))
    let error_violations :=
      violations.filter (fun v => decide (v.severity = RuleSeverity.ERROR))
    let warning_violations :=
      violations.filter (fun v => decide (v.severity = RuleSeverity.WARNING))
    if critical_violations.length > 0 then
      let nc := critical_violations.length
      ({ g with blocked_count := g.blocked_count + 1 },
       ⟨GateDecision.BLOCK, violations, s!"Violações críticas detectadas: {nc}",
        state_vector, true, false⟩)
    else if g.strict_mode &&
        (error_violations.length > 0 || warning_violations.length > 0) then
      let nv := violations.length
      ({ g with blocked_count := g.blocked_count + 1 },
       ⟨GateDecision.BLOCK, violations, s!"Modo strict: {nv} violações detectadas",
        state_vector, true, false⟩)
    else if error_violations.length > 0 then
      let ne := error_violations.length
      (g,
       ⟨GateDecision.QUARANTINE, violations, s!"Erros detectados: {ne} (quarentena)",
        state_vector, true, false⟩)
    else
      ({ g with allowed_count := g.allowed_count + 1 },
       ⟨GateDecision.ALLOW, violations, "Transição permitida",
        state_vector, true, true⟩)

/-- `OmegaGate.validate_and_append` (omega_gate.py lines 194-217): appends
the candidate to the trajectory only on an allowed result.  Returns the
updated gate, the (possibly extended) trajectory and the result. -/
def OmegaGate.validate_and_append (Hs : StateVector → String) (g : OmegaGate)
    (state_vector : StateVector) (psi_state : PsiState)
    (signature_valid : Bool) : OmegaGate × PsiState × GateResult :=
  let out := g.validate state_vector psi_state signature_valid
  if out.2.is_allowed then
    (out.1, (psi_state.append Hs state_vector).1, out.2)
  else
    (out.1, psi_state, out.2)

/-! ## Helper lemmas -/

theorem filter_pos_iff_any {α : Type} (l : List α) (p : α → Bool) :
    0 < (l.filter p).length ↔ l.any p = true := by
  induction l with
  | nil => simp
  | cons a l ih =>
    by_cases h : p a = true <;> simp [List.filter_cons, h, ih]

theorem decide_filter_pos_eq_any {α : Type} (l : List α) (p : α → Bool) :
    decide (0 < (l.filter p).length) = l.any p := by
  by_cases h : 0 < (l.filter p).length
  · simp [h, (filter_pos_iff_any l p).mp h]
  · have h2 : l.any p ≠ true := fun hc => h ((filter_pos_iff_any l p).mpr hc)
    simp [h, Bool.eq_false_iff.mpr h2]

theorem any_orb {α : Type} (l : List α) (p q : α → Bool) :
    l.any (fun x => p x || q x) = (l.any p || l.any q) := by
  induction l with
  | nil => rfl
  | cons a l ih =>
    simp only [List.any_cons, ih]
    cases p a <;> cases q a <;> simp

/-- Claim C2: with `signature_valid = false` the gate blocks with an empty
violation list and increments the blocked counter, and the result does not
depend on the rule set or the strict flag (the rules are never evaluated). -/
theorem validate_invalid_signature_blocks (g : OmegaGate) (sv : StateVector)
    (psi : PsiState) :
    (g.validate sv psi false).2.decision = GateDecision.BLOCK
    ∧ (g.validate sv psi false).2.violations = []
    ∧ (g.validate sv psi false).1.blocked_count = g.blocked_count + 1
    ∧ (g.validate sv psi false).1.allowed_count = g.allowed_count
    ∧ ∀ (rules' : SigmaRuleSet) (strict' : Bool),
        (OmegaGate.validate ⟨rules', strict', g.blocked_count, g.allowed_count⟩
            sv psi false).2
          = (g.validate sv psi false).2 :=
  ⟨rfl, rfl, rfl, rfl, fun _ _ => rfl⟩

/-- Claim C3: with a valid signature, the violation list is exactly
`check_all` over the candidate merged with the trajectory context, and the
decision follows the fixed order: any Critical blocks; else strict mode
blocks on any Error-or-Warning; else any Error quarantines; else allow. -/
theorem validate_valid_signature_ordering (g : OmegaGate) (sv : StateVector)
    (psi : PsiState) :
    (g.validate sv psi true).2.violations
        = g.sigma_rules.check_all (mergeValidationState sv psi)
    ∧ (g.validate sv psi true).2.decision =
        (if (g.sigma_rules.check_all (mergeValidationState sv psi)).any
              (fun v => decide (v.severity = RuleSeverity.CRITICAL)) then
           GateDecision.BLOCK
         else if g.strict_mode &&
             (g.sigma_rules.check_all (mergeValidationState sv psi)).any
               (fun v => decide (v.severity = RuleSeverity.ERROR)
                  || decide (v.severity = RuleSeverity.WARNING)) then
           GateDecision.BLOCK
         else if (g.sigma_rules.check_all (mergeValidationState sv psi)).any
               (fun v => decide (v.severity = RuleSeverity.ERROR)) then
           GateDecision.QUARANTINE
         else GateDecision.ALLOW) := by
  generalize hL : g.sigma_rules.check_all (mergeValidationState sv psi) = L
  unfold OmegaGate.validate
  simp only [Bool.not_true, Bool.false_eq_true, if_false, hL]
  constructor
  · split_ifs <;> rfl
  · rw [← decide_filter_pos_eq_any L (fun v => decide (v.severity = RuleSeverity.CRITICAL)),
        any_orb,
        ← decide_filter_pos_eq_any L
          (fun v => decide (v.severity = RuleSeverity.ERROR)),
        ← decide_filter_pos_eq_any L
          (fun v => decide (v.severity = RuleSeverity.WARNING))]
    split_ifs <;> simp_all [filter_pos_iff_any, List.any_eq_true] <;> aesop

/-- Case analysis of `OmegaGate.validate`: every outcome is one of the
three decisions, each with its exact counter effect.  Quarantine (source
lines 172-181) updates neither counter. -/
theorem validate_counter_cases (g : OmegaGate) (sv : StateVector)
    (psi : PsiState) (sig : Bool) :
    ((g.validate sv psi sig).2.decision = GateDecision.ALLOW
        ∧ (g.validate sv psi sig).1.allowed_count = g.allowed_count + 1
        ∧ (g.validate sv psi sig).1.blocked_count = g.blocked_count)
    ∨ ((g.validate sv psi sig).2.decision = GateDecision.BLOCK
        ∧ (g.validate sv psi sig).1.blocked_count = g.blocked_count + 1
        ∧ (g.validate sv psi sig).1.allowed_count = g.allowed_count)
    ∨ ((g.validate sv psi sig).2.decision = GateDecision.QUARANTINE
        ∧ (g.validate sv psi sig).1.blocked_count = g.blocked_count
        ∧ (g.validate sv psi sig).1.allowed_count = g.allowed_count) := by
  unfold OmegaGate.validate
  cases sig
  · exact Or.inr (Or.inl ⟨rfl, rfl, rfl⟩)
  · simp only [Bool.not_true, Bool.false_eq_true, if_false]
    split_ifs
    · exact Or.inr (Or.inl ⟨rfl, rfl, rfl⟩)
    · exact Or.inr (Or.inl ⟨rfl, rfl, rfl⟩)
    · exact Or.inr (Or.inr ⟨rfl, rfl, rfl⟩)
    · exact Or.inl ⟨rfl, rfl, rfl⟩

/-- An ERROR-severity rule whose predicate always reports a violation
(used to drive the gate into the quarantine branch). -/
def alwaysErrorRule : SigmaRule :=
  ⟨"SIGMA_TEST_ERROR", "sempre falha", fun _ => Except.ok false,
   RuleSeverity.ERROR⟩

/-- A non-strict gate carrying only `alwaysErrorRule`, counters at zero. -/
def cGate : OmegaGate := ⟨⟨[alwaysErrorRule]⟩, false, 0, 0⟩

/-- A minimal concrete candidate state vector. -/
def cSV : StateVector := { puf_id := "p", timestamp := 0 }

/-- A concrete stand-in for `StateVector.compute_hash`. -/
def cHs : StateVector → String := fun _ => "h"

/-- Claim C4 is false as stated: on a QUARANTINE decision the trajectory is
untouched but the blocked counter does NOT increase (it stays 0), because
the quarantine branch of `validate` increments neither counter. -/
theorem quarantine_does_not_increment_blocked :
    (OmegaGate.validate_and_append cHs cGate cSV ⟨[], []⟩ true).2.2.decision
        = GateDecision.QUARANTINE
    ∧ (OmegaGate.validate_and_append cHs cGate cSV ⟨[], []⟩ true).2.1 = ⟨[], []⟩
    ∧ (OmegaGate.validate_and_append cHs cGate cSV ⟨[], []⟩ true).1.blocked_count = 0
    ∧ (OmegaGate.validate_and_append cHs cGate cSV ⟨[], []⟩ true).1.allowed_count = 0 := by
  decide

/-- Claim C4 (amended): on ALLOW the candidate is appended and the allowed
counter increases by one; on BLOCK the trajectory is unchanged and the
blocked counter increases by one; on QUARANTINE the trajectory is unchanged
and neither counter changes. -/
theorem validate_and_append_effects (Hs : StateVector → String) (g : OmegaGate)
    (sv : StateVector) (psi : PsiState) (sig : Bool) :
    ((OmegaGate.validate_and_append Hs g sv psi sig).2.2.decision = GateDecision.ALLOW →
        (OmegaGate.validate_and_append Hs g sv psi sig).2.1 = (psi.append Hs sv).1
        ∧ (OmegaGate.validate_and_append Hs g sv psi sig).1.allowed_count
            = g.allowed_count + 1
        ∧ (OmegaGate.validate_and_append Hs g sv psi sig).1.blocked_count
            = g.blocked_count)
    ∧ ((OmegaGate.validate_and_append Hs g sv psi sig).2.2.decision = GateDecision.BLOCK →
        (OmegaGate.validate_and_append Hs g sv psi sig).2.1 = psi
        ∧ (OmegaGate.validate_and_append Hs g sv psi sig).1.blocked_count
            = g.blocked_count + 1
        ∧ (OmegaGate.validate_and_append Hs g sv psi sig).1.allowed_count
            = g.allowed_count)
    ∧ ((OmegaGate.validate_and_append Hs g sv psi sig).2.2.decision = GateDecision.QUARANTINE →
        (OmegaGate.validate_and_append Hs g sv psi sig).2.1 = psi
        ∧ (OmegaGate.validate_and_append Hs g sv psi sig).1.blocked_count
            = g.blocked_count
        ∧ (OmegaGate.validate_and_append Hs g sv psi sig).1.allowed_count
            = g.allowed_count) := by
  have hc := validate_counter_cases g sv psi sig
  unfold OmegaGate.validate_and_append
  rcases hc with ⟨h1, h2, h3⟩ | ⟨h1, h2, h3⟩ | ⟨h1, h2, h3⟩ <;>
    simp [GateResult.is_allowed, h1, h2, h3]

/-- Witness for claim C4's theorem: concrete BLOCK (invalid signature) and
ALLOW (empty rule set) runs with the asserted effects. -/
theorem validate_and_append_effects_witness :
    ((OmegaGate.validate_and_append cHs cGate cSV ⟨[], []⟩ false).2.1 = ⟨[], []⟩
      ∧ (OmegaGate.validate_and_append cHs cGate cSV ⟨[], []⟩ false).1.blocked_count = 1
      ∧ (OmegaGate.validate_and_append cHs cGate cSV ⟨[], []⟩ false).1.allowed_count = 0)
    ∧ ((OmegaGate.validate_and_append cHs ⟨⟨[]⟩, true, 0, 0⟩ cSV ⟨[], []⟩ true).2.1
          = (PsiState.append cHs ⟨[], []⟩ cSV).1
      ∧ (OmegaGate.validate_and_append cHs ⟨⟨[]⟩, true, 0, 0⟩ cSV ⟨[], []⟩ true).1.allowed_count = 1
      ∧ (OmegaGate.validate_and_append cHs ⟨⟨[]⟩, true, 0, 0⟩ cSV ⟨[], []⟩ true).1.blocked_count = 0) :=
  ⟨(validate_and_append_effects cHs cGate cSV ⟨[], []⟩ false).2.1 (by decide),
   (validate_and_append_effects cHs ⟨⟨[]⟩, true, 0, 0⟩ cSV ⟨[], []⟩ true).1 (by decide)⟩

theorem some_getLastD (l : List String) (hl : 0 < l.length) :
    some (l.getLastD "") = l[l.length - 1]? := by
  have hidx : l.length - 1 < l.length := by omega
  rw [List.getLastD_eq_getLast?, List.getLast?_eq_getElem?,
    List.getElem?_eq_getElem hidx]
  rfl

/-- The hash-chain condition checked by `verify_chain`, index by index. -/
theorem verify_chain_iff (t : PsiState)
    (hlen : t.states.length = t.state_hashes.length) :
    t.verify_chain = true ↔
      ∀ i, 0 < i → i < t.states.length →
        (t.states[i]?.bind StateVector.prev_hash) = t.state_hashes[i - 1]? := by
  unfold PsiState.verify_chain
  rw [List.all_eq_true]
  constructor
  · intro H i h0 hi
    have hmem := H i (List.mem_range.mpr hi)
    have hi1 : i - 1 < t.state_hashes.length := by omega
    rw [List.getElem?_eq_getElem hi, List.getElem?_eq_getElem hi1] at hmem ⊢
    rw [if_neg (Nat.pos_iff_ne_zero.mp h0)] at hmem
    simp only [Option.some_bind]
    exact of_decide_eq_true hmem
  · intro H x hx
    rw [List.mem_range] at hx
    by_cases h0 : x = 0
    · simp [h0]
    · have h0' : 0 < x := Nat.pos_of_ne_zero h0
      have hx1 : x - 1 < t.state_hashes.length := by omega
      have hh := H x h0' hx
      rw [List.getElem?_eq_getElem hx, List.getElem?_eq_getElem hx1] at hh ⊢
      simp only [Option.some_bind] at hh
      simp [h0, hh]

/-- One `append` call preserves the parallel-length invariant and chain
validity. -/
theorem append_preserves_chain (Hs : StateVector → String) (t : PsiState)
    (v : StateVector)
    (hlen : t.states.length = t.state_hashes.length)
    (hch : t.verify_chain = true) :
    ((t.append Hs v).1.states.length = (t.append Hs v).1.state_hashes.length)
    ∧ (t.append Hs v).1.verify_chain = true := by
  refine ⟨by simp [PsiState.append, hlen], ?_⟩
  rw [verify_chain_iff _ (by simp [PsiState.append, hlen])]
  intro i h0 hi
  rw [verify_chain_iff t hlen] at hch
  simp only [PsiState.append, List.length_append, List.length_singleton] at hi
  show ((t.append Hs v).1.states[i]?.bind StateVector.prev_hash)
      = (t.append Hs v).1.state_hashes[i - 1]?
  simp only [PsiState.append]
  by_cases hlt : i < t.states.length
  · rw [List.getElem?_append, if_pos hlt, List.getElem?_append,
      if_pos (by omega : i - 1 < t.state_hashes.length)]
    exact hch i h0 hlt
  · have hn : i = t.states.length := by omega
    have hpos : 0 < t.states.length := by omega
    subst hn
    rw [List.getElem?_concat_length]
    rw [List.getElem?_append,
      if_pos (by omega : t.states.length - 1 < t.state_hashes.length)]
    simp only [Option.some_bind, if_pos hpos]
    rw [hlen]
    exact some_getLastD t.state_hashes (by omega)

/-- `appendAll` from any chain-valid trajectory stays chain-valid. -/
theorem appendAll_preserves_chain (Hs : StateVector → String)
    (vs : List StateVector) :
    ∀ t : PsiState, t.states.length = t.state_hashes.length →
      t.verify_chain = true →
      ((appendAll Hs t vs).states.length = (appendAll Hs t vs).state_hashes.length
        ∧ (appendAll Hs t vs).verify_chain = true) := by
  induction vs with
  | nil => intro t h1 h2; exact ⟨h1, h2⟩
  | cons v vs ih =>
    intro t h1 h2
    have hp := append_preserves_chain Hs t v h1 h2
    exact ih _ hp.1 hp.2

/-- Claim C5: (i) `verify_chain` is true iff every state at index `i > 0`
has `prev_hash` equal to the stored hash of the state at index `i - 1`;
(ii) every trajectory built by sequential `append` calls from an empty
trajectory verifies; (iii) overwriting a stored `prev_hash` at an index
`i ≥ 1` with a value different from the predecessor's stored hash makes
`verify_chain` false. -/
theorem verify_chain_spec :
    (∀ t : PsiState, t.states.length = t.state_hashes.length →
      (t.verify_chain = true ↔
        ∀ i, 0 < i → i < t.states.length →
          (t.states[i]?.bind StateVector.prev_hash) = t.state_hashes[i - 1]?))
    ∧ (∀ (Hs : StateVector → String) (vs : List StateVector),
        (appendAll Hs ⟨[], []⟩ vs).verify_chain = true)
    ∧ (∀ (t : PsiState) (i : Nat) (v : Option String),
        t.states.length = t.state_hashes.length →
        0 < i → i < t.states.length →
        v ≠ t.state_hashes[i - 1]? →
        (setPrevHash t i v).verify_chain = false) := by
  refine ⟨verify_chain_iff, ?_, ?_⟩
  · intro Hs vs
    exact (appendAll_preserves_chain Hs vs ⟨[], []⟩ rfl rfl).2
  · intro t i v hlen h0 hi hne
    unfold setPrevHash
    rw [List.getElem?_eq_getElem hi]
    by_contra hc
    rw [Bool.not_eq_false] at hc
    rw [verify_chain_iff _ (by simpa [List.length_set] using hlen)] at hc
    have hchk := hc i h0 (by simpa [List.length_set] using hi)
    simp only [List.getElem?_set_self (by simpa [List.length_set] using hi),
      Option.some_bind] at hchk
    exact hne hchk

/-- Witness for claim C5's theorem: a two-element trajectory built by
`appendAll` verifies, and tampering its second `prev_hash` breaks it. -/
theorem verify_chain_spec_witness :
    (appendAll cHs ⟨[], []⟩ [cSV, cSV]).verify_chain = true
    ∧ ((appendAll cHs ⟨[], []⟩ [cSV, cSV]).verify_chain = true ↔
        ∀ i, 0 < i → i < (appendAll cHs ⟨[], []⟩ [cSV, cSV]).states.length →
          ((appendAll cHs ⟨[], []⟩ [cSV, cSV]).states[i]?.bind StateVector.prev_hash)
            = (appendAll cHs ⟨[], []⟩ [cSV, cSV]).state_hashes[i - 1]?)
    ∧ (setPrevHash (appendAll cHs ⟨[], []⟩ [cSV, cSV]) 1 (some "zzz")).verify_chain
        = false :=
  ⟨verify_chain_spec.2.1 cHs [cSV, cSV],
   verify_chain_spec.1 (appendAll cHs ⟨[], []⟩ [cSV, cSV]) (by decide),
   verify_chain_spec.2.2 (appendAll cHs ⟨[], []⟩ [cSV, cSV]) 1 (some "zzz")
     (by decide) (by decide) (by decide) (by decide)⟩

/-- Claim C7: `check_all` is total (it returns a list, never propagating a
fault), a rule whose predicate raises contributes a CRITICAL violation
regardless of its declared severity, and every returned violation comes
from evaluating one of the rules. -/
theorem check_all_fail_closed (rs : SigmaRuleSet) (state : ValState) :
    (∀ r, r ∈ rs.rules → ∀ e, r.validator state = Except.error e →
        (⟨r.rule_id, RuleSeverity.CRITICAL, "Erro ao validar: " ++ e, state⟩
            : RuleViolation) ∈ rs.check_all state)
    ∧ (∀ v, v ∈ rs.check_all state →
        ∃ r, r ∈ rs.rules ∧ r.check state = some v) := by
  constructor
  · intro r hr e he
    unfold SigmaRuleSet.check_all
    rw [List.mem_filterMap]
    exact ⟨r, hr, by simp [SigmaRule.check, he]⟩
  · intro v hv
    unfold SigmaRuleSet.check_all at hv
    rw [List.mem_filterMap] at hv
    exact hv

/-- A WARNING-severity rule whose predicate always raises. -/
def throwingRule : SigmaRule :=
  ⟨"SIGMA_TEST_RAISE", "sempre lança", fun _ => Except.error "boom",
   RuleSeverity.WARNING⟩

/-- Witness for claim C7's theorem: the raising rule (declared WARNING)
contributes a CRITICAL violation. -/
theorem check_all_fail_closed_witness :
    (⟨"SIGMA_TEST_RAISE", RuleSeverity.CRITICAL, "Erro ao validar: " ++ "boom",
        cSV.to_dict⟩ : RuleViolation)
      ∈ SigmaRuleSet.check_all ⟨[throwingRule]⟩ cSV.to_dict :=
  (check_all_fail_closed ⟨[throwingRule]⟩ cSV.to_dict).1 throwingRule
    (List.mem_singleton.mpr rfl) "boom" rfl

/-! ## Ohash ledger (src/ohash/ohash.py) -/

/-- `OhashRecord` (ohash.py lines 15-54). -/
structure OhashRecord where
  ohash : String
  timestamp : String
  puf_id : String
  entropy_bits : Int
  algorithm : String := "SHA3-256"
  metadata : List (String × String) := []
deriving DecidableEq

/-- `OhashLedger` (ohash.py lines 216-227): the `records` dict as an
association list in insertion order. -/
structure OhashLedger where
  records : List (String × OhashRecord)
deriving DecidableEq

/-- `OhashLedger.exists` (ohash.py lines 257-267): key membership. -/
def OhashLedger.existsHash (l : OhashLedger) (ohash : String) : Bool :=
  l.records.any (fun p => decide (p.1 = ohash))

/-- `OhashLedger.register` (ohash.py lines 228-243): check-then-insert,
returning `false` and leaving the ledger unchanged when the hash is already
present. -/
def OhashLedger.register (l : OhashLedger) (record : OhashRecord) :
    OhashLedger × Bool :=
  if l.existsHash record.ohash then (l, false)
  else (⟨l.records ++ [(record.ohash, record)]⟩, true)

/-- `OhashLedger.lookup` (ohash.py lines 245-255): first entry with the key. -/
def OhashLedger.lookup (l : OhashLedger) (ohash : String) : Option OhashRecord :=
  (l.records.find? (fun p => decide (p.1 = ohash))).map (fun p => p.2)

/-- Claim C8: registering a record whose hash is absent returns true and
makes lookup find it; any later registration under the same hash returns
false, leaves the ledger (and hence the original record) unchanged, and
lookup still returns the first record. -/
theorem register_first_writer_wins (l : OhashLedger) (r r' : OhashRecord) :
    (l.existsHash r.ohash = false →
        (l.register r).2 = true
        ∧ (l.register r).1.lookup r.ohash = some r)
    ∧ (r'.ohash = r.ohash →
        ((l.register r).1.register r').2 = false
        ∧ ((l.register r).1.register r').1 = (l.register r).1
        ∧ ((l.register r).1.register r').1.lookup r.ohash
            = (l.register r).1.lookup r.ohash) := by
  constructor
  · intro h
    unfold OhashLedger.register
    rw [h]
    refine ⟨rfl, ?_⟩
    unfold OhashLedger.lookup
    rw [if_neg (by simp), List.find?_append]
    have hnone : l.records.find? (fun p => decide (p.1 = r.ohash)) = none := by
      rw [List.find?_eq_none]
      intro p hp hpr
      have := List.any_eq_false.mp h p hp
      exact this hpr
    simp [hnone, List.find?_cons]
  · intro hr'
    by_cases h : l.existsHash r.ohash = true
    · have hfirst : l.register r = (l, false) := by
        unfold OhashLedger.register; rw [h]; rfl
      rw [hfirst]
      have hsecond : l.register r' = (l, false) := by
        unfold OhashLedger.register
        unfold OhashLedger.existsHash at h ⊢
        rw [hr', h]
        rfl
      rw [hsecond]
      exact ⟨rfl, rfl, rfl⟩
    · rw [Bool.not_eq_true] at h
      have hfirst : l.register r = (⟨l.records ++ [(r.ohash, r)]⟩, true) := by
        unfold OhashLedger.register; rw [h]; rfl
      rw [hfirst]
      have hpresent : (OhashLedger.mk (l.records ++ [(r.ohash, r)])).existsHash r'.ohash
          = true := by
        unfold OhashLedger.existsHash
        rw [List.any_append]
        simp [hr']
      have hsecond : (OhashLedger.mk (l.records ++ [(r.ohash, r)])).register r'
          = (⟨l.records ++ [(r.ohash, r)]⟩, false) := by
        unfold OhashLedger.register; rw [hpresent]; rfl
      rw [hsecond]
      exact ⟨rfl, rfl, rfl⟩

/-- A concrete record for the ledger witness. -/
def cRecord : OhashRecord :=
  { ohash := "abc", timestamp := "t", puf_id := "p", entropy_bits := 256 }

/-- A different record carrying the same public hash. -/
def cRecord2 : OhashRecord :=
  { ohash := "abc", timestamp := "t2", puf_id := "p2", entropy_bits := 128 }

/-- Witness for claim C8's theorem: first registration on an empty ledger
succeeds; the duplicate fails and changes nothing. -/
theorem register_first_writer_wins_witness :
    ((OhashLedger.register ⟨[]⟩ cRecord).2 = true
      ∧ (OhashLedger.register ⟨[]⟩ cRecord).1.lookup cRecord.ohash = some cRecord)
    ∧ (((OhashLedger.register ⟨[]⟩ cRecord).1.register cRecord2).2 = false
      ∧ ((OhashLedger.register ⟨[]⟩ cRecord).1.register cRecord2).1
          = (OhashLedger.register ⟨[]⟩ cRecord).1
      ∧ ((OhashLedger.register ⟨[]⟩ cRecord).1.register cRecord2).1.lookup cRecord.ohash
          = (OhashLedger.register ⟨[]⟩ cRecord).1.lookup cRecord.ohash) :=
  ⟨(register_first_writer_wins ⟨[]⟩ cRecord cRecord2).1 (by decide),
   (register_first_writer_wins ⟨[]⟩ cRecord cRecord2).2 (by decide)⟩

/-! ## Triple anchor and genesis artifact (src/genesis) -/

/-- `AnchorType` (triple_anchor.py lines 22-26). -/
inductive AnchorType
  | SYSTEM
  | NETWORK
  | LEDGER
deriving DecidableEq

/-- The enum's string value. -/
def AnchorType.value : AnchorType → String
  | .SYSTEM => "system"
  | .NETWORK => "network"
  | .LEDGER => "ledger"

/-- `Anchor` (triple_anchor.py lines 29-56). -/
structure Anchor where
  anchor_type : AnchorType
  timestamp : Int
  timestamp_iso : String
  source : String
  signature : Option String := none
deriving DecidableEq

/-- `TripleAnchor` (triple_anchor.py lines 59-69): the `anchors` dict keyed
by the three anchor types. -/
structure TripleAnchor where
  system : Option Anchor := none
  network : Option Anchor := none
  ledger : Option Anchor := none
deriving DecidableEq

/-- `TripleAnchor.create_all` (triple_anchor.py lines 71-171): the three
clock readings (Python `time.time()` calls) are passed in as `tsys`,
`tnet`, `tled`; ISO rendering and the simulated block signature
(`sha3_256(b"SIMULATED_BLOCK" + str(timestamp))`) are the parameters `iso`
and `blockSig`. -/
def TripleAnchor.create_all (iso : Int → String) (blockSig : Int → String)
    (tsys tnet tled : Int) : TripleAnchor :=
  { system := some ⟨AnchorType.SYSTEM, tsys, iso tsys, "system_clock", none⟩
    network := some ⟨AnchorType.NETWORK, tnet, iso tnet, "pool.ntp.org", none⟩
    ledger := some ⟨AnchorType.LEDGER, tled, iso tled, "simulated_ledger",
      some (blockSig tled)⟩ }

/-- The dict's values in insertion order (system, network, ledger). -/
def TripleAnchor.anchorsList (ta : TripleAnchor) : List Anchor :=
  [ta.system, ta.network, ta.ledger].filterMap id

/-- Minimum of a timestamp list (`min(timestamps)`; lists here are nonempty
whenever the source evaluates them). -/
def listMin : List Int → Int
  | [] => 0
  | x :: xs => xs.foldl (fun a b => if a ≤ b then a else b) x

/-- Maximum of a timestamp list (`max(timestamps)`). -/
def listMax : List Int → Int
  | [] => 0
  | x :: xs => xs.foldl (fun a b => if a ≤ b then b else a) x

/-- `TripleAnchor.verify_consistency` (triple_anchor.py lines 173-194). -/
def TripleAnchor.verify_consistency (ta : TripleAnchor) (max_drift : Int) :
    Bool :=
  let anchors := ta.anchorsList
  if anchors.length < 2 then true
  else
    let timestamps := anchors.map Anchor.timestamp
    decide (listMax timestamps - listMin timestamps ≤ max_drift)

/-- `TripleAnchor.compute_hash` (triple_anchor.py lines 244-261): hashes the
anchors sorted by type value; since "ledger" < "network" < "system"
alphabetically, the sorted order is ledger, network, system.  Each anchor
contributes its type value, timestamp and source. -/
def TripleAnchor.compute_hash (HA : List (String × Int × String) → String)
    (ta : TripleAnchor) : String :=
  HA (([ta.ledger, ta.network, ta.system].filterMap id).map
    (fun a => (a.anchor_type.value, a.timestamp, a.source)))

/-- Insertion step of key-sorting (Python `sorted` over dict keys). -/
def insertByKey {α : Type} (x : String × α) : List (String × α) → List (String × α)
  | [] => [x]
  | y :: ys => if x.1 < y.1 then x :: y :: ys else y :: insertByKey x ys

/-- Sort an association list by key (Python `sorted(keys)` iteration). -/
def sortByKey {α : Type} (l : List (String × α)) : List (String × α) :=
  l.foldr insertByKey []

/-- `GenesisBundle.compute_bundle_hash` (genesis_artifact.py lines 49-59):
domain-tagged hash over the files sorted by name, abstracted as `HB` over
the sorted file list. -/
def compute_bundle_hash (HB : List (String × Bytes) → String)
    (files : List (String × Bytes)) : String :=
  HB (sortByKey files)

/-- `GenesisArtifact` (genesis_artifact.py lines 69-115). -/
structure GenesisArtifact where
  puf_id : String
  ohash : String
  entropy_bits : Int
  experiment_name : String
  experiment_description : String
  bundle : List (String × Bytes) := []
  triple_anchor : TripleAnchor := {}
  signatures : List String := []
  metadata : List (String × String) := []
  finalized : Bool := false
  genesis_hash : Option String := none
deriving DecidableEq

/-- The exact data fed (in this fixed order, after the `SVCA_GENESIS_V1`
domain tag) into the genesis hash by `_compute_genesis_hash`
(genesis_artifact.py lines 166-200).  Note that `signatures` is absent. -/
structure GenesisHashInput where
  puf_id : String
  ohash : String
  entropy_bits : Int
  experiment_name : String
  experiment_description : String
  bundle_hash : String
  anchor_hash : String
  metadata_sorted : List (String × String)
deriving DecidableEq

/-- The argument of the abstracted genesis hash `HG`. -/
def GenesisArtifact.genesisInput (HB : List (String × Bytes) → String)
    (HA : List (String × Int × String) → String) (a : GenesisArtifact) :
    GenesisHashInput :=
  ⟨a.puf_id, a.ohash, a.entropy_bits, a.experiment_name,
   a.experiment_description, compute_bundle_hash HB a.bundle,
   TripleAnchor.compute_hash HA a.triple_anchor, sortByKey a.metadata⟩

/-- `GenesisArtifact._compute_genesis_hash` (genesis_artifact.py lines
166-200). -/
def GenesisArtifact.compute_genesis_hash (HB : List (String × Bytes) → String)
    (HA : List (String × Int × String) → String)
    (HG : GenesisHashInput → String) (a : GenesisArtifact) : String :=
  HG (a.genesisInput HB HA)

/-- `GenesisArtifact.finalize` (genesis_artifact.py lines 143-164): raises
when already finalized, otherwise creates the three anchors, computes and
stores the genesis hash and freezes the artifact. -/
def GenesisArtifact.finalize (HB : List (String × Bytes) → String)
    (HA : List (String × Int × String) → String)
    (HG : GenesisHashInput → String) (iso blockSig : Int → String)
    (tsys tnet tled : Int) (a : GenesisArtifact) :
    Except String (GenesisArtifact × String) :=
  if a.finalized then Except.error "Artefato já finalizado"
  else
    let a1 := { a with triple_anchor := TripleAnchor.create_all iso blockSig tsys tnet tled }
    let gh := a1.compute_genesis_hash HB HA HG
    Except.ok ({ a1 with genesis_hash := some gh, finalized := true }, gh)

/-- `GenesisArtifact.verify` (genesis_artifact.py lines 271-292): false
unless finalized, the recomputed genesis hash matches the stored one and
the anchors are mutually consistent (drift at most 5 seconds). -/
def GenesisArtifact.verify (HB : List (String × Bytes) → String)
    (HA : List (String × Int × String) → String)
    (HG : GenesisHashInput → String) (a : GenesisArtifact) : Bool :=
  a.finalized
    && (a.genesis_hash == some (a.compute_genesis_hash HB HA HG))
    && a.triple_anchor.verify_consistency 5

/-- Concrete ISO rendering stand-in. -/
def isoToy : Int → String := fun _ => "iso"

/-- Concrete simulated-block-signature stand-in. -/
def blockToy : Int → String := fun _ => "blk"

/-- Concrete bundle-hash stand-in (sensitive to the file list). -/
def HBtoy : List (String × Bytes) → String := fun l => toString l.length

/-- Concrete anchors-hash stand-in (sensitive to the anchor list). -/
def HAtoy : List (String × Int × String) → String := fun l => toString l.length

/-- Concrete genesis-hash stand-in (sensitive to identity fields). -/
def HGtoy : GenesisHashInput → String :=
  fun i => i.puf_id ++ "/" ++ i.ohash ++ "/" ++ i.bundle_hash ++ "/" ++ i.anchor_hash

/-- A concrete draft artifact. -/
def cArt : GenesisArtifact :=
  { puf_id := "p", ohash := "o", entropy_bits := 1,
    experiment_name := "e", experiment_description := "d" }

/-- The concrete artifact finalized with all three clock readings at 0. -/
def cFinalized : GenesisArtifact :=
  match cArt.finalize HBtoy HAtoy HGtoy isoToy blockToy 0 0 0 with
  | Except.ok p => p.1
  | Except.error _ => cArt

/-- Claim C6 is false as stated: `signatures` is a finalized field of the
artifact, yet it is not covered by the genesis hash, so tampering with it
leaves `verify()` returning true. -/
theorem verify_misses_signature_tamper :
    cFinalized.finalized = true
    ∧ cFinalized.verify HBtoy HAtoy HGtoy = true
    ∧ ({ cFinalized with signatures := ["forjada"] }).signatures
        ≠ cFinalized.signatures
    ∧ ({ cFinalized with signatures := ["forjada"] }).verify HBtoy HAtoy HGtoy
        = true := by
  decide

/-- Claim C6 (amended): after `finalize`, any tamper that changes the hashed
genesis input is detected (verify returns false once the recomputed digest
differs from the stored one); changing any single hashed field — identity
fields, experiment fields, bundle, metadata, anchors — changes that input;
verify also returns false on a stored-hash mismatch or inconsistent
anchors; but the `signatures` field is outside the genesis hash and its
tampering never affects `verify`. -/
theorem genesis_verify_spec (HB : List (String × Bytes) → String)
    (HA : List (String × Int × String) → String)
    (HG : GenesisHashInput → String) :
    (∀ a a' : GenesisArtifact,
        a'.finalized = true →
        a'.genesis_hash = a.genesis_hash →
        a.genesis_hash = some (HG (a.genesisInput HB HA)) →
        HG (a'.genesisInput HB HA) ≠ HG (a.genesisInput HB HA) →
        a'.verify HB HA HG = false)
    ∧ (∀ (a : GenesisArtifact) (x : String), x ≠ a.puf_id →
        ({ a with puf_id := x }).genesisInput HB HA ≠ a.genesisInput HB HA)
    ∧ (∀ (a : GenesisArtifact) (x : String), x ≠ a.ohash →
        ({ a with ohash := x }).genesisInput HB HA ≠ a.genesisInput HB HA)
    ∧ (∀ (a : GenesisArtifact) (x : Int), x ≠ a.entropy_bits →
        ({ a with entropy_bits := x }).genesisInput HB HA ≠ a.genesisInput HB HA)
    ∧ (∀ (a : GenesisArtifact) (x : String), x ≠ a.experiment_name →
        ({ a with experiment_name := x }).genesisInput HB HA ≠ a.genesisInput HB HA)
    ∧ (∀ (a : GenesisArtifact) (x : String), x ≠ a.experiment_description →
        ({ a with experiment_description := x }).genesisInput HB HA
          ≠ a.genesisInput HB HA)
    ∧ (∀ (a : GenesisArtifact) (b : List (String × Bytes)),
        HB (sortByKey b) ≠ HB (sortByKey a.bundle) →
        ({ a with bundle := b }).genesisInput HB HA ≠ a.genesisInput HB HA)
    ∧ (∀ (a : GenesisArtifact) (m : List (String × String)),
        sortByKey m ≠ sortByKey a.metadata →
        ({ a with metadata := m }).genesisInput HB HA ≠ a.genesisInput HB HA)
    ∧ (∀ (a : GenesisArtifact) (ta : TripleAnchor),
        TripleAnchor.compute_hash HA ta
            ≠ TripleAnchor.compute_hash HA a.triple_anchor →
        ({ a with triple_anchor := ta }).genesisInput HB HA ≠ a.genesisInput HB HA)
    ∧ (∀ a : GenesisArtifact,
        a.genesis_hash ≠ some (a.compute_genesis_hash HB HA HG) →
        a.verify HB HA HG = false)
    ∧ (∀ a : GenesisArtifact,
        a.triple_anchor.verify_consistency 5 = false →
        a.verify HB HA HG = false)
    ∧ (∀ (a : GenesisArtifact) (s : List String),
        ({ a with signatures := s }).verify HB HA HG = a.verify HB HA HG) := by
  refine ⟨?_, ?_, ?_, ?_, ?_, ?_, ?_, ?_, ?_, ?_, ?_, ?_⟩
  · intro a a' hfin hsame hstored hne
    unfold GenesisArtifact.verify GenesisArtifact.compute_genesis_hash
    rw [hfin, hsame, hstored]
    have hbeq : (some (HG (a.genesisInput HB HA))
        == some (HG (a'.genesisInput HB HA))) = false := by
      rw [beq_eq_false_iff_ne]
      intro hc
      exact hne (Option.some.inj hc).symm
    rw [hbeq]
    simp
  · intro a x hx heq
    exact hx (congrArg GenesisHashInput.puf_id heq)
  · intro a x hx heq
    exact hx (congrArg GenesisHashInput.ohash heq)
  · intro a x hx heq
    exact hx (congrArg GenesisHashInput.entropy_bits heq)
  · intro a x hx heq
    exact hx (congrArg GenesisHashInput.experiment_name heq)
  · intro a x hx heq
    exact hx (congrArg GenesisHashInput.experiment_description heq)
  · intro a b hb heq
    exact hb (congrArg GenesisHashInput.bundle_hash heq)
  · intro a m hm heq
    exact hm (congrArg GenesisHashInput.metadata_sorted heq)
  · intro a ta hta heq
    exact hta (congrArg GenesisHashInput.anchor_hash heq)
  · intro a h
    unfold GenesisArtifact.verify
    rw [beq_eq_false_iff_ne.mpr h]
    simp
  · intro a h
    unfold GenesisArtifact.verify
    rw [h]
    simp
  · intro a s
    rfl

/-- An anchor set whose network reading drifts 100 seconds from the others. -/
def badTA : TripleAnchor := TripleAnchor.create_all isoToy blockToy 0 100 0

/-- Witness for claim C6's theorem: concrete tampered artifacts on which
each hypothesis is discharged by evaluation. -/
theorem genesis_verify_spec_witness :
    ({ cFinalized with puf_id := "q" }).verify HBtoy HAtoy HGtoy = false
    ∧ ({ cFinalized with puf_id := "q" }).genesisInput HBtoy HAtoy
        ≠ cFinalized.genesisInput HBtoy HAtoy
    ∧ ({ cFinalized with ohash := "x" }).genesisInput HBtoy HAtoy
        ≠ cFinalized.genesisInput HBtoy HAtoy
    ∧ ({ cFinalized with entropy_bits := 2 }).genesisInput HBtoy HAtoy
        ≠ cFinalized.genesisInput HBtoy HAtoy
    ∧ ({ cFinalized with experiment_name := "x" }).genesisInput HBtoy HAtoy
        ≠ cFinalized.genesisInput HBtoy HAtoy
    ∧ ({ cFinalized with experiment_description := "x" }).genesisInput HBtoy HAtoy
        ≠ cFinalized.genesisInput HBtoy HAtoy
    ∧ ({ cFinalized with bundle := [("f", [1])] }).genesisInput HBtoy HAtoy
        ≠ cFinalized.genesisInput HBtoy HAtoy
    ∧ ({ cFinalized with metadata := [("k", "v")] }).genesisInput HBtoy HAtoy
        ≠ cFinalized.genesisInput HBtoy HAtoy
    ∧ ({ cFinalized with triple_anchor := {} }).genesisInput HBtoy HAtoy
        ≠ cFinalized.genesisInput HBtoy HAtoy
    ∧ cArt.verify HBtoy HAtoy HGtoy = false
    ∧ ({ cFinalized with triple_anchor := badTA }).verify HBtoy HAtoy HGtoy = false
    ∧ ({ cFinalized with signatures := ["s"] }).verify HBtoy HAtoy HGtoy
        = cFinalized.verify HBtoy HAtoy HGtoy :=
  ⟨(genesis_verify_spec HBtoy HAtoy HGtoy).1 cFinalized
      { cFinalized with puf_id := "q" } (by decide) (by decide) (by decide) (by decide),
   (genesis_verify_spec HBtoy HAtoy HGtoy).2.1 cFinalized "q" (by decide),
   (genesis_verify_spec HBtoy HAtoy HGtoy).2.2.1 cFinalized "x" (by decide),
   (genesis_verify_spec HBtoy HAtoy HGtoy).2.2.2.1 cFinalized 2 (by decide),
   (genesis_verify_spec HBtoy HAtoy HGtoy).2.2.2.2.1 cFinalized "x" (by decide),
   (genesis_verify_spec HBtoy HAtoy HGtoy).2.2.2.2.2.1 cFinalized "x" (by decide),
   (genesis_verify_spec HBtoy HAtoy HGtoy).2.2.2.2.2.2.1 cFinalized
      [("f", [1])] (by decide),
   (genesis_verify_spec HBtoy HAtoy HGtoy).2.2.2.2.2.2.2.1 cFinalized
      [("k", "v")] (by decide),
   (genesis_verify_spec HBtoy HAtoy HGtoy).2.2.2.2.2.2.2.2.1 cFinalized
      {} (by decide),
   (genesis_verify_spec HBtoy HAtoy HGtoy).2.2.2.2.2.2.2.2.2.1 cArt (by decide),
   (genesis_verify_spec HBtoy HAtoy HGtoy).2.2.2.2.2.2.2.2.2.2.1
      { cFinalized with triple_anchor := badTA } (by decide),
   (genesis_verify_spec HBtoy HAtoy HGtoy).2.2.2.2.2.2.2.2.2.2.2
      cFinalized ["s"]⟩

end SVCA
